import Mathlib

/-!
Verification development for the AES-GCM mbedtls cipher adapter of this
libsrtp fork (`crypto/cipher/aes_gcm_mbedtls.c`, `crypto/include/aes_gcm_mbedtls.h`).

Bytes are modelled as `Nat`, buffers as `List Nat`.  The mbedtls cipher layer
is an external collaborator (not part of this repository); it is modelled
abstractly below (`MbedPrim`).  The adapter functions are translated
line-by-line from `aes_gcm_mbedtls.c`.
-/

/-- `srtp_err_status_t` from the host library, restricted to the
constructors this adapter uses (plus a generic `fail`). -/
inductive srtp_err_status_t
  | ok
  | fail
  | bad_param
  | alloc_fail
  | init_fail
  | auth_fail
  | cipher_fail
  | algo_fail
deriving DecidableEq

/-- `srtp_cipher_direction_t` from the host library. -/
inductive srtp_cipher_direction_t
  | srtp_direction_encrypt
  | srtp_direction_decrypt
  | srtp_direction_any
deriving DecidableEq

/-- `mbedtls_operation_t`: direction bound at key-setup time. -/
inductive mbedtls_operation_t
  | MBEDTLS_DECRYPT
  | MBEDTLS_ENCRYPT
deriving DecidableEq

/-- The mbedtls cipher algorithm identifiers used by `context_init`. -/
inductive mbedtls_cipher_type_t
  | MBEDTLS_CIPHER_NONE
  | MBEDTLS_CIPHER_AES_128_GCM
  | MBEDTLS_CIPHER_AES_256_GCM
deriving DecidableEq

/-- Modelled from the spec: the observable state of one
`mbedtls_cipher_context_t` (the Primitive Binding's opaque cipher-context
object, external to this repository).  `gcm_add` is the AAD installed by the
last `update_ad` (= GCM start), `ghash_data` the ciphertext-side bytes
absorbed by the authenticator so far, `stream_pos` the counter-mode byte
offset. -/
structure mbedtls_cipher_context_t where
  cipher_info : mbedtls_cipher_type_t
  key : List Nat
  key_bitlen : Nat
  operation : mbedtls_operation_t
  iv : List Nat
  gcm_add : List Nat
  stream_pos : Nat
  ghash_data : List Nat
deriving DecidableEq

/-- `mbedtls_cipher_init`: the zero-initialised cipher context. -/
def mbedtls_cipher_init : mbedtls_cipher_context_t :=
  { cipher_info := .MBEDTLS_CIPHER_NONE
    key := []
    key_bitlen := 0
    operation := .MBEDTLS_DECRYPT
    iv := []
    gcm_add := []
    stream_pos := 0
    ghash_data := [] }

/-- Modelled from the spec: the mbedtls GCM primitive itself (external
collaborator, §2 of the spec).  `ks key iv i` is the counter-mode keystream
byte at offset `i` — identical for encryption and decryption, which is the
mathematical content of CTR mode the round-trip property rests on.
`tag key iv aad data i` is byte `i` of the authentication tag over the
associated data and the ciphertext-side stream.  The `*_ok` flags inject
primitive failures so that the adapter's error paths are faithful. -/
structure MbedPrim where
  ks : List Nat → List Nat → Nat → Nat
  tag : List Nat → List Nat → List Nat → List Nat → Nat → Nat
  setup_ok : Bool
  setkey_ok : Bool
  reset_ok : Bool
  setiv_ok : Bool
  update_ad_ok : Bool
  update_ok : Bool
  finish_ok : Bool
  write_tag_ok : Bool

/-- All primitive operations succeed (a functioning mbedtls). -/
def MbedPrim.allOk (pm : MbedPrim) : Prop :=
  pm.setup_ok = true ∧ pm.setkey_ok = true ∧ pm.reset_ok = true ∧
  pm.setiv_ok = true ∧ pm.update_ad_ok = true ∧ pm.update_ok = true ∧
  pm.finish_ok = true ∧ pm.write_tag_ok = true

/-- XOR a byte list with the keystream starting at offset `pos`. -/
def xorKs (ks : Nat → Nat) : Nat → List Nat → List Nat
  | _, [] => []
  | pos, b :: bs => (b ^^^ ks pos) :: xorKs ks (pos + 1) bs

@[simp] theorem xorKs_nil (ks : Nat → Nat) (pos : Nat) : xorKs ks pos [] = [] := rfl

@[simp] theorem xorKs_cons (ks : Nat → Nat) (pos b : Nat) (bs : List Nat) :
    xorKs ks pos (b :: bs) = (b ^^^ ks pos) :: xorKs ks (pos + 1) bs := rfl

@[simp] theorem xorKs_length (ks : Nat → Nat) :
    ∀ (pos : Nat) (xs : List Nat), (xorKs ks pos xs).length = xs.length
  | _, [] => rfl
  | pos, _ :: bs => by simp [xorKs, xorKs_length ks (pos + 1) bs]

@[simp] theorem xorKs_xorKs (ks : Nat → Nat) :
    ∀ (pos : Nat) (xs : List Nat), xorKs ks pos (xorKs ks pos xs) = xs
  | _, [] => rfl
  | pos, b :: bs => by
    simp [xorKs, Nat.xor_assoc, xorKs_xorKs ks (pos + 1) bs]

/-- `mbedtls_cipher_setup(ctx, info)`. -/
def mbedtls_cipher_setup (pm : MbedPrim) (ctx : mbedtls_cipher_context_t)
    (info : mbedtls_cipher_type_t) : Option mbedtls_cipher_context_t :=
  if pm.setup_ok then some { ctx with cipher_info := info } else none

/-- `mbedtls_cipher_setkey(ctx, key, bits, operation)`: binds the key and the
direction (mbedtls fixes the direction at key-setup time). -/
def mbedtls_cipher_setkey (pm : MbedPrim) (ctx : mbedtls_cipher_context_t)
    (key : List Nat) (bits : Nat) (op : mbedtls_operation_t) :
    Option mbedtls_cipher_context_t :=
  if pm.setkey_ok then
    some { ctx with key := key, key_bitlen := bits, operation := op }
  else none

/-- `mbedtls_cipher_reset(ctx)`: clears the running stream state; the stored
IV and key survive (the next `update_ad` restarts GCM from them). -/
def mbedtls_cipher_reset (pm : MbedPrim) (ctx : mbedtls_cipher_context_t) :
    Option mbedtls_cipher_context_t :=
  if pm.reset_ok then some { ctx with stream_pos := 0, ghash_data := [] } else none

/-- `mbedtls_cipher_set_iv(ctx, iv, iv_len)`: stores the first `iv_len` bytes. -/
def mbedtls_cipher_set_iv (pm : MbedPrim) (ctx : mbedtls_cipher_context_t)
    (iv : List Nat) (iv_len : Nat) : Option mbedtls_cipher_context_t :=
  if pm.setiv_ok then some { ctx with iv := iv.take iv_len } else none

/-- `mbedtls_cipher_update_ad(ctx, ad, ad_len)`: for GCM this is
`mbedtls_gcm_starts` — it (re)starts the operation with the stored IV and the
given AAD, resetting the counter and the authenticator. -/
def mbedtls_cipher_update_ad (pm : MbedPrim) (ctx : mbedtls_cipher_context_t)
    (ad : List Nat) : Option mbedtls_cipher_context_t :=
  if pm.update_ad_ok then
    some { ctx with gcm_add := ad, stream_pos := 0, ghash_data := [] }
  else none

/-- `mbedtls_cipher_update(ctx, input, ilen, output, olen)`: CTR-encrypts the
input with the keystream at the current offset; the authenticator absorbs the
ciphertext side (the output when encrypting, the input when decrypting). -/
def mbedtls_cipher_update (pm : MbedPrim) (ctx : mbedtls_cipher_context_t)
    (input : List Nat) : Option (mbedtls_cipher_context_t × List Nat) :=
  if pm.update_ok then
    let out := xorKs (pm.ks ctx.key ctx.iv) ctx.stream_pos input
    let absorbed := match ctx.operation with
      | .MBEDTLS_ENCRYPT => out
      | .MBEDTLS_DECRYPT => input
    some ({ ctx with
              stream_pos := ctx.stream_pos + input.length,
              ghash_data := ctx.ghash_data ++ absorbed }, out)
  else none

/-- `mbedtls_cipher_update_patched`: the repository's patched variant of
`mbedtls_cipher_update` (lives in the mbedtls tree, not under `src/`);
modelled with the same stream semantics. -/
def mbedtls_cipher_update_patched (pm : MbedPrim) (ctx : mbedtls_cipher_context_t)
    (input : List Nat) : Option (mbedtls_cipher_context_t × List Nat) :=
  mbedtls_cipher_update pm ctx input

/-- `mbedtls_cipher_finish`: GCM is a stream mode, no buffered bytes remain. -/
def mbedtls_cipher_finish (pm : MbedPrim) (ctx : mbedtls_cipher_context_t) :
    Option (mbedtls_cipher_context_t × List Nat) :=
  if pm.finish_ok then some (ctx, []) else none

/-- The tag the primitive would compute for the context's current state. -/
def mbedtls_gcm_tag (pm : MbedPrim) (ctx : mbedtls_cipher_context_t)
    (tag_len : Nat) : List Nat :=
  (List.range tag_len).map (pm.tag ctx.key ctx.iv ctx.gcm_add ctx.ghash_data)

/-- `mbedtls_cipher_write_tag(ctx, buf, tag_len)`. -/
def mbedtls_cipher_write_tag (pm : MbedPrim) (ctx : mbedtls_cipher_context_t)
    (tag_len : Nat) : Option (List Nat) :=
  if pm.write_tag_ok then some (mbedtls_gcm_tag pm ctx tag_len) else none

/-- `mbedtls_cipher_check_tag(ctx, tag, tag_len)`: `true` means the tags
match (the C call returns 0). -/
def mbedtls_cipher_check_tag (pm : MbedPrim) (ctx : mbedtls_cipher_context_t)
    (tag : List Nat) (tag_len : Nat) : Bool :=
  tag == mbedtls_gcm_tag pm ctx tag_len

/-! ## The adapter's data model (`aes_gcm_mbedtls.h`) -/

/-- Key/tag length constants from `crypto_types.h` / the allocation comment
in `aes_gcm_mbedtls.c` (key lengths 28 and 44 include the host protocol's
salt; the cipher keys proper are 16 and 32 octets). -/
def SRTP_AES_128_KEY_LEN : Nat := 16

def SRTP_AES_256_KEY_LEN : Nat := 32

def SRTP_AES_GCM_128_KEY_LEN_WSALT : Nat := 28

def SRTP_AES_GCM_256_KEY_LEN_WSALT : Nat := 44

def GCM_AUTH_TAG_LEN : Nat := 16

def GCM_AUTH_TAG_LEN_8 : Nat := 8

/-- `srtp_aes_gcm_ctx_t` (aes_gcm_mbedtls.h lines 55-72).  `aad` is the fixed
1024-octet buffer, `aad_len` the running length, `ctxe`/`ctxd` the two
direction-bound sub-contexts, `dir` the active direction. -/
structure srtp_aes_gcm_ctx_t where
  key_size : Nat
  tag_len : Nat
  aad_len : Nat
  aad : List Nat
  ctxe : mbedtls_cipher_context_t
  ctxd : mbedtls_cipher_context_t
  dir : srtp_cipher_direction_t
deriving DecidableEq

/-- The two GCM algorithm identifiers of the host library. -/
inductive srtp_cipher_algorithm_t
  | SRTP_AES_GCM_128
  | SRTP_AES_GCM_256
deriving DecidableEq

/-- The relevant fields of the `srtp_cipher_t` wrapper filled by `alloc`
(the vtable pointer is the static engine table and is not modelled). -/
structure srtp_cipher_t where
  state : srtp_aes_gcm_ctx_t
  key_len : Nat
  algorithm : srtp_cipher_algorithm_t
deriving DecidableEq

/-- `memcpy(buf + off, d, d.length)` into a fixed buffer: bytes that would
land past the end of `buf` are dropped by the model (in the C they are an
out-of-bounds write). -/
def storeBytes (buf : List Nat) (off : Nat) (d : List Nat) : List Nat :=
  buf.take off ++ d.take (buf.length - off) ++ buf.drop (off + d.length)

/-- The zero-filled `srtp_aes_gcm_ctx_t` produced by `memset(gcm, 0x0, ...)`
in `alloc`.  Modelled from the spec: the numeric value of the all-zero
direction enum lives in a header outside `src/`; the spec's data model
describes a freshly allocated context as direction-undetermined. -/
def gcmZeroCtx : srtp_aes_gcm_ctx_t :=
  { key_size := 0
    tag_len := 0
    aad_len := 0
    aad := List.replicate 1024 0
    ctxe := mbedtls_cipher_init
    ctxd := mbedtls_cipher_init
    dir := .srtp_direction_any }

/-! ## The adapter's operations (`aes_gcm_mbedtls.c`) -/

/-- `srtp_aes_gcm_mbedtls_alloc` (lines 85-152).  Memory allocation itself is
an external collaborator and modelled as succeeding; on parameter failure the
function returns before producing a context (`none`). -/
def srtp_aes_gcm_mbedtls_alloc (key_len tlen : Nat) :
    srtp_err_status_t × Option srtp_cipher_t :=
  if key_len ≠ SRTP_AES_GCM_128_KEY_LEN_WSALT ∧
     key_len ≠ SRTP_AES_GCM_256_KEY_LEN_WSALT then
    (.bad_param, none)
  else if tlen ≠ GCM_AUTH_TAG_LEN ∧ tlen ≠ GCM_AUTH_TAG_LEN_8 then
    (.bad_param, none)
  else if key_len = SRTP_AES_GCM_128_KEY_LEN_WSALT then
    (.ok, some { state := { gcmZeroCtx with key_size := SRTP_AES_128_KEY_LEN, tag_len := tlen }
                 key_len := key_len
                 algorithm := .SRTP_AES_GCM_128 })
  else
    (.ok, some { state := { gcmZeroCtx with key_size := SRTP_AES_256_KEY_LEN, tag_len := tlen }
                 key_len := key_len
                 algorithm := .SRTP_AES_GCM_256 })

/-- `srtp_aes_gcm_mbedtls_context_init` (lines 190-224).  The state is
threaded exactly as the C mutates it in place, so an error return carries the
mutations already performed. -/
def srtp_aes_gcm_mbedtls_context_init (pm : MbedPrim) (c : srtp_aes_gcm_ctx_t)
    (key : List Nat) : srtp_err_status_t × srtp_aes_gcm_ctx_t :=
  let c := { c with dir := .srtp_direction_any, aad_len := 0 }
  let evp? : Option mbedtls_cipher_type_t :=
    if c.key_size = SRTP_AES_256_KEY_LEN then some .MBEDTLS_CIPHER_AES_256_GCM
    else if c.key_size = SRTP_AES_128_KEY_LEN then some .MBEDTLS_CIPHER_AES_128_GCM
    else none
  match evp? with
  | none => (.bad_param, c)
  | some evp =>
    match mbedtls_cipher_setup pm c.ctxe evp with
    | none => (.init_fail, c)
    | some e1 =>
      let c := { c with ctxe := e1 }
      match mbedtls_cipher_setup pm c.ctxd evp with
      | none => (.init_fail, c)
      | some d1 =>
        let c := { c with ctxd := d1 }
        match mbedtls_cipher_setkey pm c.ctxe key (c.key_size * 8) .MBEDTLS_ENCRYPT with
        | none => (.init_fail, c)
        | some e2 =>
          let c := { c with ctxe := e2 }
          match mbedtls_cipher_setkey pm c.ctxd key (c.key_size * 8) .MBEDTLS_DECRYPT with
          | none => (.init_fail, c)
          | some d2 => (.ok, { c with ctxd := d2 })

/-- The sub-context selector `(c->dir == srtp_direction_encrypt) ? &(c->ctxe)
: &(c->ctxd)` (lines 237, 300, 349, 377). -/
def activeCt (c : srtp_aes_gcm_ctx_t) : mbedtls_cipher_context_t :=
  if c.dir = .srtp_direction_encrypt then c.ctxe else c.ctxd

/-- Write back through the selector pointer: mutating `*ct` mutates the
sub-context `dir` selected. -/
def putCt (c : srtp_aes_gcm_ctx_t) (ct : mbedtls_cipher_context_t) :
    srtp_aes_gcm_ctx_t :=
  if c.dir = .srtp_direction_encrypt then { c with ctxe := ct } else { c with ctxd := ct }

/-- `srtp_aes_gcm_mbedtls_set_iv` (lines 229-262). -/
def srtp_aes_gcm_mbedtls_set_iv (pm : MbedPrim) (c : srtp_aes_gcm_ctx_t)
    (iv : List Nat) (direction : srtp_cipher_direction_t) :
    srtp_err_status_t × srtp_aes_gcm_ctx_t :=
  if direction ≠ .srtp_direction_encrypt ∧ direction ≠ .srtp_direction_decrypt then
    (.bad_param, c)
  else
    let c := { c with dir := direction }
    match mbedtls_cipher_reset pm (activeCt c) with
    | none => (.algo_fail, c)
    | some ct1 =>
      let c := putCt c ct1
      match mbedtls_cipher_set_iv pm (activeCt c) iv 12 with
      | none => (.init_fail, c)
      | some ct2 =>
        let c := putCt c ct2
        match mbedtls_cipher_update_ad pm (activeCt c) [] with
        | none => (.init_fail, c)
        | some ct3 => (.ok, putCt c ct3)

/-- `srtp_aes_gcm_mbedtls_set_aad` (lines 278-284): append to the fixed
buffer with no bound check and bump the running length. -/
def srtp_aes_gcm_mbedtls_set_aad (c : srtp_aes_gcm_ctx_t) (aad : List Nat) :
    srtp_err_status_t × srtp_aes_gcm_ctx_t :=
  (.ok, { c with
            aad := storeBytes c.aad c.aad_len aad,
            aad_len := c.aad_len + aad.length })

/-- The buffered-AAD forwarding block shared verbatim by `encrypt`
(lines 307-314) and `decrypt` (lines 382-389): when AAD is buffered, reset
the active sub-context and hand the whole buffer to the primitive's one-shot
AAD call.  An `Except.error` carries the error status and the context as
mutated so far. -/
def forwardAad (pm : MbedPrim) (c : srtp_aes_gcm_ctx_t) :
    Except (srtp_err_status_t × srtp_aes_gcm_ctx_t) srtp_aes_gcm_ctx_t :=
  if c.aad_len ≠ 0 then
    match mbedtls_cipher_reset pm (activeCt c) with
    | none => .error (.algo_fail, c)
    | some ct1 =>
      let c := putCt c ct1
      match mbedtls_cipher_update_ad pm (activeCt c) (c.aad.take c.aad_len) with
      | none => .error (.algo_fail, c)
      | some ct2 => .ok (putCt c ct2)
  else .ok c

/-- `srtp_aes_gcm_mbedtls_encrypt` (lines 294-333).  The returned list is the
first `*enc_len` bytes of the caller's buffer after the call (the work
happens in `buf_tmp` and is copied back only on success, so failure paths
return the input unchanged). -/
def srtp_aes_gcm_mbedtls_encrypt (pm : MbedPrim) (c : srtp_aes_gcm_ctx_t)
    (buf : List Nat) : srtp_err_status_t × srtp_aes_gcm_ctx_t × List Nat :=
  if c.dir ≠ .srtp_direction_encrypt ∧ c.dir ≠ .srtp_direction_decrypt then
    (.bad_param, c, buf)
  else
    match forwardAad pm c with
    | .error (st, c) => (st, c, buf)
    | .ok c =>
      match mbedtls_cipher_update_patched pm (activeCt c) buf with
      | none => (.cipher_fail, c, buf)
      | some (ct1, out1) =>
        let c := putCt c ct1
        match mbedtls_cipher_finish pm (activeCt c) with
        | none => (.cipher_fail, c, buf)
        | some (ct2, out2) => (.ok, putCt c ct2, out1 ++ out2)

/-- `srtp_aes_gcm_mbedtls_get_tag` (lines 346-363): note there is no
direction check; the sub-context is picked by the stored direction and the
tag is written with the primitive.  Returns (status, tag bytes, reported
`*len`). -/
def srtp_aes_gcm_mbedtls_get_tag (pm : MbedPrim) (c : srtp_aes_gcm_ctx_t) :
    srtp_err_status_t × List Nat × Nat :=
  match mbedtls_cipher_write_tag pm (activeCt c) c.tag_len with
  | none => (.cipher_fail, [], 0)
  | some tag => (.ok, tag, c.tag_len)

/-- `srtp_aes_gcm_mbedtls_decrypt` (lines 374-422).  The C computes the
sub-context pointer (line 377) before the direction check — a pure address
computation, folded into `activeCt` here.  The returned list is the first
`*enc_len` bytes of the caller's buffer after the call; on `auth_fail` it
still holds the decrypted-but-unauthenticated plaintext, as in the C. -/
def srtp_aes_gcm_mbedtls_decrypt (pm : MbedPrim) (c : srtp_aes_gcm_ctx_t)
    (buf : List Nat) : srtp_err_status_t × srtp_aes_gcm_ctx_t × List Nat :=
  if c.dir ≠ .srtp_direction_encrypt ∧ c.dir ≠ .srtp_direction_decrypt then
    (.bad_param, c, buf)
  else
    match forwardAad pm c with
    | .error (st, c) => (st, c, buf)
    | .ok c =>
      let tag := (buf.drop (buf.length - c.tag_len)).take c.tag_len
      match mbedtls_cipher_update pm (activeCt c) (buf.take (buf.length - c.tag_len)) with
      | none => (.cipher_fail, c, buf)
      | some (ct1, out1) =>
        let c := putCt c ct1
        match mbedtls_cipher_finish pm (activeCt c) with
        | none => (.cipher_fail, c, out1)
        | some (ct2, out2) =>
          let c := putCt c ct2
          if mbedtls_cipher_check_tag pm (activeCt c) tag c.tag_len then
            (.ok, c, out1 ++ out2)
          else
            (.auth_fail, c, out1 ++ out2)

/-! ## The per-packet pipeline (claim C1) -/

/-- The full lifecycle of the claim: allocate, key-init, IV/direction setup
for encryption, buffer the AAD, encrypt, fetch the tag, re-enter with the
same IV for decryption and decrypt ciphertext-plus-tag.  Returns the decrypt
output when every step reports `ok`, `none` otherwise.  (No second `set_aad`
call is made on the decrypt side: the adapter's buffer still holds exactly
the AAD supplied once, so the decryption runs with the same key, IV and
AAD.) -/
def gcm_roundtrip (pm : MbedPrim) (key_len tlen : Nat)
    (key iv aad pt : List Nat) : Option (List Nat) :=
  match srtp_aes_gcm_mbedtls_alloc key_len tlen with
  | (.ok, some cobj) =>
    match srtp_aes_gcm_mbedtls_context_init pm cobj.state key with
    | (.ok, c1) =>
      match srtp_aes_gcm_mbedtls_set_iv pm c1 iv .srtp_direction_encrypt with
      | (.ok, c2) =>
        match srtp_aes_gcm_mbedtls_set_aad c2 aad with
        | (.ok, c3) =>
          match srtp_aes_gcm_mbedtls_encrypt pm c3 pt with
          | (.ok, c4, ct) =>
            match srtp_aes_gcm_mbedtls_get_tag pm c4 with
            | (.ok, tag, _) =>
              match srtp_aes_gcm_mbedtls_set_iv pm c4 iv .srtp_direction_decrypt with
              | (.ok, c5) =>
                match srtp_aes_gcm_mbedtls_decrypt pm c5 (ct ++ tag) with
                | (.ok, _, ptOut) => some ptOut
                | _ => none
              | _ => none
            | _ => none
          | _ => none
        | _ => none
      | _ => none
    | _ => none
  | _ => none

/-- A concrete functioning primitive, used by the witnesses. -/
def pm0 : MbedPrim :=
  { ks := fun key iv n => (key.sum + iv.sum + n) % 256
    tag := fun key iv aad d i => (key.sum + iv.sum + aad.sum + d.sum + i) % 256
    setup_ok := true
    setkey_ok := true
    reset_ok := true
    setiv_ok := true
    update_ad_ok := true
    update_ok := true
    finish_ok := true
    write_tag_ok := true }


@[simp] theorem xorKs_append_take (ks : Nat → Nat) (pos : Nat) (xs ys : List Nat) :
    (xorKs ks pos xs ++ ys).take xs.length = xorKs ks pos xs :=
  List.take_left' (xorKs_length ks pos xs)

@[simp] theorem storeBytes_zero_take_self (buf d : List Nat) (h : d.length ≤ buf.length) :
    (storeBytes buf 0 d).take d.length = d := by
  simp [storeBytes, List.take_of_length_le h]

@[simp] theorem storeBytes_length_eq (buf d : List Nat) (h : d.length ≤ buf.length) :
    (storeBytes buf 0 d).length = buf.length := by
  simp [storeBytes, List.take_of_length_le h, Nat.sub_add_cancel, h]

@[simp] theorem gcmZeroCtx_aad_length : gcmZeroCtx.aad.length = 1024 :=
  List.length_replicate 1024 0

@[simp] theorem xorKs_append_drop (ks : Nat → Nat) (pos : Nat) (xs ys : List Nat) :
    (xorKs ks pos xs ++ ys).drop xs.length = ys :=
  List.drop_left' (xorKs_length ks pos xs)

set_option maxRecDepth 10000 in
/-- Claim C1: for every valid key, 12-octet IV, AAD and plaintext, with a
functioning primitive, the adapter round-trips: encrypting and appending the
tag from get-tag, then re-entering via set-IV with direction decrypt with the
same key/IV/AAD and decrypting ciphertext-plus-tag succeeds and reproduces
the plaintext exactly (so the reported length equals the original plaintext
length). -/
theorem aes_gcm_mbedtls_roundtrip (pm : MbedPrim) (hok : pm.allOk)
    (key_len tlen : Nat) (hk : key_len = 28 ∨ key_len = 44)
    (ht : tlen = 16 ∨ tlen = 8) (key iv aad pt : List Nat)
    (hiv : iv.length = 12) (haad : aad.length ≤ 1024) :
    gcm_roundtrip pm key_len tlen key iv aad pt = some pt := by
  obtain ⟨h1, h2, h3, h4, h5, h6, h7, h8⟩ := hok
  rcases hk with rfl | rfl <;> rcases ht with rfl | rfl <;> by_cases ha : aad = [] <;>
    simp [gcm_roundtrip, srtp_aes_gcm_mbedtls_alloc, srtp_aes_gcm_mbedtls_context_init,
      srtp_aes_gcm_mbedtls_set_iv, srtp_aes_gcm_mbedtls_set_aad,
      srtp_aes_gcm_mbedtls_encrypt, srtp_aes_gcm_mbedtls_get_tag,
      srtp_aes_gcm_mbedtls_decrypt, forwardAad, activeCt, putCt,
      mbedtls_cipher_setup, mbedtls_cipher_setkey, mbedtls_cipher_reset,
      mbedtls_cipher_set_iv, mbedtls_cipher_update_ad, mbedtls_cipher_update,
      mbedtls_cipher_update_patched, mbedtls_cipher_finish,
      mbedtls_cipher_write_tag, mbedtls_cipher_check_tag, mbedtls_gcm_tag,
      SRTP_AES_128_KEY_LEN, SRTP_AES_256_KEY_LEN, SRTP_AES_GCM_128_KEY_LEN_WSALT,
      SRTP_AES_GCM_256_KEY_LEN_WSALT, GCM_AUTH_TAG_LEN, GCM_AUTH_TAG_LEN_8,
      h1, h2, h3, h4, h5, h6, h7, h8, ha, haad,
      List.take_of_length_le, List.take_left]

/-- Witness for the round-trip theorem at a concrete key, IV, AAD and
plaintext. -/
theorem aes_gcm_mbedtls_roundtrip_witness :
    pm0.allOk ∧
    gcm_roundtrip pm0 28 16 (List.replicate 16 1) (List.replicate 12 2)
      [5, 6] [9, 8, 7] = some [9, 8, 7] :=
  ⟨⟨rfl, rfl, rfl, rfl, rfl, rfl, rfl, rfl⟩,
   aes_gcm_mbedtls_roundtrip pm0 ⟨rfl, rfl, rfl, rfl, rfl, rfl, rfl, rfl⟩ 28 16
     (Or.inl rfl) (Or.inl rfl) (List.replicate 16 1) (List.replicate 12 2)
     [5, 6] [9, 8, 7] (by decide) (by decide)⟩

/-- Claim C5: with the direction still undetermined, both encrypt and decrypt
return `bad_param` with the context and the caller's buffer untouched,
whatever the primitive would do (so before any primitive operation is
attempted). -/
theorem encrypt_decrypt_dir_unset_bad_param (pm : MbedPrim)
    (c : srtp_aes_gcm_ctx_t) (buf : List Nat)
    (h : c.dir = .srtp_direction_any) :
    srtp_aes_gcm_mbedtls_encrypt pm c buf = (.bad_param, c, buf) ∧
    srtp_aes_gcm_mbedtls_decrypt pm c buf = (.bad_param, c, buf) := by
  constructor <;>
    simp [srtp_aes_gcm_mbedtls_encrypt, srtp_aes_gcm_mbedtls_decrypt, h]

/-- A primitive whose every operation fails; used to show the direction check
fires before any primitive call. -/
def pmFail : MbedPrim :=
  { ks := fun _ _ _ => 0
    tag := fun _ _ _ _ _ => 0
    setup_ok := false
    setkey_ok := false
    reset_ok := false
    setiv_ok := false
    update_ad_ok := false
    update_ok := false
    finish_ok := false
    write_tag_ok := false }

/-- Witness for the direction-unset check: even with a primitive that fails
every call, a direction-unset context gets `bad_param` from both entry
points. -/
theorem encrypt_decrypt_dir_unset_bad_param_witness :
    gcmZeroCtx.dir = .srtp_direction_any ∧
    srtp_aes_gcm_mbedtls_encrypt pmFail gcmZeroCtx [1, 2, 3] =
      (.bad_param, gcmZeroCtx, [1, 2, 3]) ∧
    srtp_aes_gcm_mbedtls_decrypt pmFail gcmZeroCtx [1, 2, 3] =
      (.bad_param, gcmZeroCtx, [1, 2, 3]) :=
  ⟨rfl,
   (encrypt_decrypt_dir_unset_bad_param pmFail gcmZeroCtx [1, 2, 3] rfl).1,
   (encrypt_decrypt_dir_unset_bad_param pmFail gcmZeroCtx [1, 2, 3] rfl).2⟩

/-- Claim C6: `alloc` rejects any key length other than the two supported
with-salt values (28, 44) and any tag length other than 16 or 8 with
`bad_param` and produces no context; for supported values it returns a
context recording `key_size` (16 for the 28-octet, 32 for the 44-octet
variant) and `tag_len`. -/
theorem alloc_validation (key_len tlen : Nat) :
    (key_len ≠ 28 ∧ key_len ≠ 44 →
      srtp_aes_gcm_mbedtls_alloc key_len tlen = (.bad_param, none)) ∧
    (tlen ≠ 16 ∧ tlen ≠ 8 →
      srtp_aes_gcm_mbedtls_alloc key_len tlen = (.bad_param, none)) ∧
    (key_len = 28 ∨ key_len = 44 → tlen = 16 ∨ tlen = 8 →
      ∃ cobj, srtp_aes_gcm_mbedtls_alloc key_len tlen = (.ok, some cobj) ∧
        cobj.state.key_size = (if key_len = 28 then 16 else 32) ∧
        cobj.state.tag_len = tlen ∧ cobj.key_len = key_len) := by
  refine ⟨?_, ?_, ?_⟩
  · intro h
    simp [srtp_aes_gcm_mbedtls_alloc, SRTP_AES_GCM_128_KEY_LEN_WSALT,
      SRTP_AES_GCM_256_KEY_LEN_WSALT, h.1, h.2]
  · intro h
    by_cases h28 : key_len = 28
    · subst h28
      simp [srtp_aes_gcm_mbedtls_alloc, SRTP_AES_GCM_128_KEY_LEN_WSALT,
        SRTP_AES_GCM_256_KEY_LEN_WSALT, GCM_AUTH_TAG_LEN, GCM_AUTH_TAG_LEN_8,
        h.1, h.2]
    · by_cases h44 : key_len = 44
      · subst h44
        simp [srtp_aes_gcm_mbedtls_alloc, SRTP_AES_GCM_128_KEY_LEN_WSALT,
          SRTP_AES_GCM_256_KEY_LEN_WSALT, GCM_AUTH_TAG_LEN, GCM_AUTH_TAG_LEN_8,
          h.1, h.2]
      · simp [srtp_aes_gcm_mbedtls_alloc, SRTP_AES_GCM_128_KEY_LEN_WSALT,
          SRTP_AES_GCM_256_KEY_LEN_WSALT, h28, h44]
  · intro hk ht
    rcases hk with rfl | rfl <;> rcases ht with rfl | rfl <;>
      exact ⟨_, rfl, by decide, by decide, by decide⟩

/-- Witness for the allocation validation at concrete parameters. -/
theorem alloc_validation_witness :
    srtp_aes_gcm_mbedtls_alloc 30 16 = (.bad_param, none) ∧
    srtp_aes_gcm_mbedtls_alloc 28 12 = (.bad_param, none) ∧
    (∃ cobj, srtp_aes_gcm_mbedtls_alloc 44 8 = (.ok, some cobj) ∧
      cobj.state.key_size = (if (44 : Nat) = 28 then 16 else 32) ∧
      cobj.state.tag_len = 8 ∧ cobj.key_len = 44) :=
  ⟨(alloc_validation 30 16).1 (by decide),
   (alloc_validation 28 12).2.1 (by decide),
   (alloc_validation 44 8).2.2 (Or.inr rfl) (Or.inr rfl)⟩

/-- `storeBytes` in its in-bounds regime: prefix, data, suffix. -/
theorem storeBytes_in_bounds (buf : List Nat) (off : Nat) (d : List Nat)
    (h : off + d.length ≤ buf.length) :
    storeBytes buf off d = buf.take off ++ d ++ buf.drop (off + d.length) := by
  have hd : d.take (buf.length - off) = d := List.take_of_length_le (by omega)
  unfold storeBytes
  rw [hd]

/-- Two consecutive in-bounds `memcpy`-appends equal one `memcpy` of the
concatenation. -/
theorem storeBytes_append (buf : List Nat) (off : Nat) (a b : List Nat)
    (h : off + a.length + b.length ≤ buf.length) :
    storeBytes buf off (a ++ b) =
      storeBytes (storeBytes buf off a) (off + a.length) b := by
  have hoff : off ≤ buf.length := by omega
  have ha : off + a.length ≤ buf.length := by omega
  have hlen : (buf.take off ++ a ++ buf.drop (off + a.length)).length = buf.length := by
    simp [Nat.min_eq_left hoff]
    omega
  rw [storeBytes_in_bounds buf off a ha,
    storeBytes_in_bounds _ (off + a.length) b (by rw [hlen]; omega),
    storeBytes_in_bounds buf off (a ++ b) (by simp; omega)]
  have h4 : (buf.take off ++ a ++ buf.drop (off + a.length)).take (off + a.length) =
      buf.take off ++ a := by
    rw [List.append_assoc, List.take_append_eq_append_take, List.take_take,
      Nat.min_eq_right (by omega), List.length_take, Nat.min_eq_left hoff]
    have hsub : off + a.length - off = a.length := by omega
    rw [hsub, List.take_left]
  have h5 : (buf.take off ++ a ++ buf.drop (off + a.length)).drop
      (off + a.length + b.length) = buf.drop (off + a.length + b.length) := by
    rw [List.append_assoc, List.drop_append_eq_append_drop,
      List.drop_of_length_le (l := buf.take off)
        (by rw [List.length_take, Nat.min_eq_left hoff]; omega),
      List.length_take, Nat.min_eq_left hoff, List.nil_append,
      List.drop_append_eq_append_drop,
      List.drop_of_length_le (l := a) (by omega)]
    have hsub1 : off + a.length + b.length - off - a.length = b.length := by omega
    rw [List.nil_append, hsub1, List.drop_drop]
  rw [h4, h5]
  simp [List.append_assoc, Nat.add_assoc]

/-- Claim C7: supplying AAD in two `set_aad` calls leaves the context in
exactly the same state as one call with the concatenation, provided the
combined length fits the 1024-octet buffer — hence any subsequent data-phase
operation (and so the ciphertext and tag) is identical. -/
theorem set_aad_split (c : srtp_aes_gcm_ctx_t) (a1 a2 : List Nat)
    (hbuf : c.aad.length = 1024)
    (hfit : c.aad_len + a1.length + a2.length ≤ 1024) :
    srtp_aes_gcm_mbedtls_set_aad (srtp_aes_gcm_mbedtls_set_aad c a1).2 a2 =
      srtp_aes_gcm_mbedtls_set_aad c (a1 ++ a2) ∧
    ∀ pm pt, srtp_aes_gcm_mbedtls_encrypt pm
        (srtp_aes_gcm_mbedtls_set_aad (srtp_aes_gcm_mbedtls_set_aad c a1).2 a2).2 pt =
      srtp_aes_gcm_mbedtls_encrypt pm (srtp_aes_gcm_mbedtls_set_aad c (a1 ++ a2)).2 pt := by
  have hst : srtp_aes_gcm_mbedtls_set_aad (srtp_aes_gcm_mbedtls_set_aad c a1).2 a2 =
      srtp_aes_gcm_mbedtls_set_aad c (a1 ++ a2) := by
    simp only [srtp_aes_gcm_mbedtls_set_aad]
    rw [storeBytes_append c.aad c.aad_len a1 a2 (by omega)]
    simp [Nat.add_assoc]
  exact ⟨hst, fun pm pt => by rw [hst]⟩

/-- Witness for the split-AAD equivalence on a concrete context. -/
theorem set_aad_split_witness :
    gcmZeroCtx.aad.length = 1024 ∧
    srtp_aes_gcm_mbedtls_set_aad (srtp_aes_gcm_mbedtls_set_aad gcmZeroCtx [1, 2]).2 [3] =
      srtp_aes_gcm_mbedtls_set_aad gcmZeroCtx [1, 2, 3] :=
  ⟨gcmZeroCtx_aad_length,
   (set_aad_split gcmZeroCtx [1, 2] [3] gcmZeroCtx_aad_length (by decide)).1⟩

/-- A 600-octet chunk of associated data. -/
def aad600 : List Nat := List.replicate 600 7

theorem aad600_length : aad600.length = 600 := List.length_replicate 600 7

/-- Counterexample to claim C3 as stated: `set_aad` performs no bound check,
so two 600-octet accumulation calls on a fresh context leave the recorded
associated-data length at 1200, exceeding the buffer's 1024-octet capacity
(in the C, the second `memcpy` writes past the end of the buffer). -/
theorem set_aad_overflow_cx :
    1024 < ((srtp_aes_gcm_mbedtls_set_aad
        (srtp_aes_gcm_mbedtls_set_aad gcmZeroCtx aad600).2 aad600).2).aad_len ∧
    ((srtp_aes_gcm_mbedtls_set_aad
        (srtp_aes_gcm_mbedtls_set_aad gcmZeroCtx aad600).2 aad600).2).aad_len = 1200 := by
  have hz : gcmZeroCtx.aad_len = 0 := rfl
  constructor <;> simp [srtp_aes_gcm_mbedtls_set_aad, hz, aad600_length]

/-- A sequence of `set_aad` calls, as the host library performs them. -/
def applyAadCalls (c : srtp_aes_gcm_ctx_t) (ds : List (List Nat)) :
    srtp_aes_gcm_ctx_t :=
  ds.foldl (fun c d => (srtp_aes_gcm_mbedtls_set_aad c d).2) c

theorem applyAadCalls_aad_len (ds : List (List Nat)) :
    ∀ c : srtp_aes_gcm_ctx_t,
      (applyAadCalls c ds).aad_len = c.aad_len + (ds.map List.length).sum := by
  induction ds with
  | nil => intro c; simp [applyAadCalls]
  | cons d ds ih =>
    intro c
    have hstep : applyAadCalls c (d :: ds) =
        applyAadCalls (srtp_aes_gcm_mbedtls_set_aad c d).2 ds := rfl
    rw [hstep, ih]
    simp [srtp_aes_gcm_mbedtls_set_aad, Nat.add_assoc]

/-- Claim C3, amended: provided the cumulative AAD supplied over a sequence
of `set_aad` calls fits in the 1024-octet buffer, the recorded length equals
the cumulative total, never exceeds 1024, and stays within 1024 after every
intermediate call (so every write stays inside the buffer). -/
theorem set_aad_bounded (c : srtp_aes_gcm_ctx_t) (ds : List (List Nat))
    (h : c.aad_len + (ds.map List.length).sum ≤ 1024) :
    (applyAadCalls c ds).aad_len = c.aad_len + (ds.map List.length).sum ∧
    (applyAadCalls c ds).aad_len ≤ 1024 ∧
    ∀ i, (applyAadCalls c (ds.take i)).aad_len ≤ 1024 := by
  have hsum : ∀ i : Nat, (((ds.take i).map List.length).sum) ≤ (ds.map List.length).sum := by
    intro i
    conv_rhs => rw [← List.take_append_drop i ds]
    rw [List.map_append, List.sum_append]
    exact Nat.le_add_right _ _
  refine ⟨applyAadCalls_aad_len ds c, ?_, ?_⟩
  · rw [applyAadCalls_aad_len ds c]; exact h
  · intro i
    rw [applyAadCalls_aad_len (ds.take i) c]
    have := hsum i
    omega

/-- Witness for the bounded-accumulation theorem on a concrete call
sequence. -/
theorem set_aad_bounded_witness :
    gcmZeroCtx.aad_len + ([[1, 2], [3]].map List.length).sum ≤ 1024 ∧
    (applyAadCalls gcmZeroCtx [[1, 2], [3]]).aad_len ≤ 1024 :=
  ⟨by decide, (set_aad_bounded gcmZeroCtx [[1, 2], [3]] (by decide)).2.1⟩

/-- The context right after allocation (128-bit variant, 16-octet tag) and
key initialisation with a concrete key — its direction is undetermined. -/
def ctxAfterInit128 : srtp_aes_gcm_ctx_t :=
  (srtp_aes_gcm_mbedtls_context_init pm0
    { gcmZeroCtx with key_size := SRTP_AES_128_KEY_LEN, tag_len := 16 }
    (List.replicate 16 9)).2

/-- Counterexample to claim C2 as stated: on a freshly key-initialised
context (direction undetermined) `get_tag` does not return `bad_param` — it
runs the primitive on the decrypt sub-context and reports `ok`. -/
theorem get_tag_dir_unset_cx :
    ctxAfterInit128.dir = .srtp_direction_any ∧
    (srtp_aes_gcm_mbedtls_get_tag pm0 ctxAfterInit128).1 = .ok := by
  constructor <;> decide

/-- Claim C2, amended: `get_tag` performs no direction check.  Called with
the direction still undetermined it never returns `bad_param`; it operates
on the decrypt sub-context (the selector's else-branch) and returns whatever
the primitive's tag-write gives (`ok`, or `cipher_fail` on primitive
failure). -/
theorem get_tag_no_direction_check (pm : MbedPrim) (c : srtp_aes_gcm_ctx_t)
    (h : c.dir = .srtp_direction_any) :
    (srtp_aes_gcm_mbedtls_get_tag pm c).1 ≠ .bad_param ∧
    srtp_aes_gcm_mbedtls_get_tag pm c =
      (match mbedtls_cipher_write_tag pm c.ctxd c.tag_len with
       | none => (.cipher_fail, [], 0)
       | some tag => (.ok, tag, c.tag_len)) := by
  have hact : activeCt c = c.ctxd := by simp [activeCt, h]
  refine ⟨?_, ?_⟩
  · unfold srtp_aes_gcm_mbedtls_get_tag
    rw [hact]
    cases mbedtls_cipher_write_tag pm c.ctxd c.tag_len <;> simp
  · unfold srtp_aes_gcm_mbedtls_get_tag
    rw [hact]

/-- Witness for the amended C2 theorem at a concrete context. -/
theorem get_tag_no_direction_check_witness :
    ctxAfterInit128.dir = .srtp_direction_any ∧
    (srtp_aes_gcm_mbedtls_get_tag pm0 ctxAfterInit128).1 ≠ .bad_param :=
  ⟨by decide, (get_tag_no_direction_check pm0 ctxAfterInit128 (by decide)).1⟩

/-- Packet 1 on the keyed context: set-IV (encrypt), buffer one AAD octet,
encrypt a one-octet payload. -/
def ctxAfterPacket1 : srtp_aes_gcm_ctx_t :=
  (srtp_aes_gcm_mbedtls_encrypt pm0
    (srtp_aes_gcm_mbedtls_set_aad
      (srtp_aes_gcm_mbedtls_set_iv pm0 ctxAfterInit128 (List.replicate 12 3)
        .srtp_direction_encrypt).2 [171]).2 [1]).2.1

/-- Re-entry for packet 2 via set-IV. -/
def ctxPacket2 : srtp_aes_gcm_ctx_t :=
  (srtp_aes_gcm_mbedtls_set_iv pm0 ctxAfterPacket1 (List.replicate 12 4)
    .srtp_direction_encrypt).2

set_option maxRecDepth 100000 in
/-- Claim C4 evaluated on the code: after re-entering via set-IV for a new
packet, the associated-data length is still 1 (the buffer was not consumed or
reset — only `context_init` resets it), and the next packet's encrypt
forwards the stale packet-1 AAD `[171]` to the primitive even though no AAD
was supplied for packet 2. -/
theorem set_iv_does_not_reset_aad :
    ctxPacket2.aad_len = 1 ∧
    ((srtp_aes_gcm_mbedtls_encrypt pm0 ctxPacket2 [2]).2.1).ctxe.gcm_add = [171] := by
  constructor <;> decide

/-- Claim C8: `context_init` always resets the direction to undetermined and
the AAD length to zero; a `key_size` other than 16 or 32 yields `bad_param`
with the sub-contexts untouched; for a supported `key_size`, if setup and
key-scheduling succeed it selects the GCM variant matching `key_size` and
installs the same key into the encrypt sub-context in the encrypt direction
and into the decrypt sub-context in the decrypt direction, and if either
primitive step fails it returns `init_fail`. -/
theorem context_init_spec (pm : MbedPrim) (c : srtp_aes_gcm_ctx_t)
    (key : List Nat) :
    ((srtp_aes_gcm_mbedtls_context_init pm c key).2.dir = .srtp_direction_any ∧
     (srtp_aes_gcm_mbedtls_context_init pm c key).2.aad_len = 0) ∧
    (c.key_size ≠ 16 ∧ c.key_size ≠ 32 →
      srtp_aes_gcm_mbedtls_context_init pm c key =
        (.bad_param, { c with dir := .srtp_direction_any, aad_len := 0 })) ∧
    (c.key_size = 16 ∨ c.key_size = 32 →
      ((pm.setup_ok = false ∨ pm.setkey_ok = false →
        (srtp_aes_gcm_mbedtls_context_init pm c key).1 = .init_fail) ∧
       (pm.setup_ok = true → pm.setkey_ok = true →
        srtp_aes_gcm_mbedtls_context_init pm c key =
          (.ok, { c with
                    dir := .srtp_direction_any
                    aad_len := 0
                    ctxe := { c.ctxe with
                                cipher_info :=
                                  if c.key_size = 32 then .MBEDTLS_CIPHER_AES_256_GCM
                                  else .MBEDTLS_CIPHER_AES_128_GCM
                                key := key
                                key_bitlen := c.key_size * 8
                                operation := .MBEDTLS_ENCRYPT }
                    ctxd := { c.ctxd with
                                cipher_info :=
                                  if c.key_size = 32 then .MBEDTLS_CIPHER_AES_256_GCM
                                  else .MBEDTLS_CIPHER_AES_128_GCM
                                key := key
                                key_bitlen := c.key_size * 8
                                operation := .MBEDTLS_DECRYPT } })))) := by
  refine ⟨?_, ?_, ?_⟩
  · by_cases h32 : c.key_size = 32 <;> by_cases h16 : c.key_size = 16 <;>
      cases hsu : pm.setup_ok <;> cases hsk : pm.setkey_ok <;>
        simp [srtp_aes_gcm_mbedtls_context_init, mbedtls_cipher_setup,
          mbedtls_cipher_setkey, SRTP_AES_128_KEY_LEN, SRTP_AES_256_KEY_LEN,
          h32, h16, hsu, hsk]
  · intro h
    simp [srtp_aes_gcm_mbedtls_context_init, SRTP_AES_128_KEY_LEN,
      SRTP_AES_256_KEY_LEN, h.1, h.2]
  · intro hk
    refine ⟨?_, ?_⟩
    · intro hfail
      rcases hfail with hf | hf
      · rcases hk with h | h <;>
          simp [srtp_aes_gcm_mbedtls_context_init, mbedtls_cipher_setup,
            SRTP_AES_128_KEY_LEN, SRTP_AES_256_KEY_LEN, h, hf]
      · cases hsu : pm.setup_ok <;> rcases hk with h | h <;>
          simp [srtp_aes_gcm_mbedtls_context_init, mbedtls_cipher_setup,
            mbedtls_cipher_setkey, SRTP_AES_128_KEY_LEN, SRTP_AES_256_KEY_LEN,
            h, hf, hsu]
    · intro hsu hsk
      rcases hk with h | h <;>
        simp [srtp_aes_gcm_mbedtls_context_init, mbedtls_cipher_setup,
          mbedtls_cipher_setkey, SRTP_AES_128_KEY_LEN, SRTP_AES_256_KEY_LEN,
          h, hsu, hsk]

/-- Witness for `context_init` at a concrete context and key: the success
shape and the failure shape of the claim both instantiated. -/
theorem context_init_spec_witness :
    ((srtp_aes_gcm_mbedtls_context_init pm0
        { gcmZeroCtx with key_size := 16, tag_len := 16 }
        (List.replicate 16 9)).2.dir = .srtp_direction_any ∧
     (srtp_aes_gcm_mbedtls_context_init pm0
        { gcmZeroCtx with key_size := 16, tag_len := 16 }
        (List.replicate 16 9)).2.aad_len = 0) ∧
    (srtp_aes_gcm_mbedtls_context_init pm0
        { gcmZeroCtx with key_size := 7, tag_len := 16 } [] =
      (.bad_param, { { gcmZeroCtx with key_size := 7, tag_len := 16 } with
                       dir := .srtp_direction_any, aad_len := 0 })) ∧
    (srtp_aes_gcm_mbedtls_context_init pmFail
        { gcmZeroCtx with key_size := 16, tag_len := 16 } []).1 = .init_fail :=
  ⟨(context_init_spec pm0 { gcmZeroCtx with key_size := 16, tag_len := 16 }
      (List.replicate 16 9)).1,
   (context_init_spec pm0 { gcmZeroCtx with key_size := 7, tag_len := 16 } []).2.1
     (by decide),
   ((context_init_spec pmFail { gcmZeroCtx with key_size := 16, tag_len := 16 } []).2.2
     (Or.inl rfl)).1 (Or.inl rfl)⟩

/-- Claim C9: on a direction-set context (decrypt direction, sub-context
keyed for decryption) with working primitives, decrypting a buffer of length
`L` whose trailing `tag_len` octets are the received tag always reports
length `L - tag_len`, returns `ok` exactly when the extracted trailing tag
equals the tag the primitive computes over the buffered (or previously
started) AAD and the ciphertext portion, and returns `auth_fail` exactly when
it does not. -/
theorem decrypt_spec (pm : MbedPrim) (c : srtp_aes_gcm_ctx_t) (buf : List Nat)
    (hdir : c.dir = .srtp_direction_decrypt)
    (hmode : c.ctxd.operation = .MBEDTLS_DECRYPT)
    (hrst : pm.reset_ok = true) (had : pm.update_ad_ok = true)
    (hup : pm.update_ok = true) (hfin : pm.finish_ok = true)
    (htl : c.tag_len ≤ buf.length) :
    ((srtp_aes_gcm_mbedtls_decrypt pm c buf).2.2).length = buf.length - c.tag_len ∧
    ((srtp_aes_gcm_mbedtls_decrypt pm c buf).1 = .ok ↔
      (buf.drop (buf.length - c.tag_len)).take c.tag_len =
        (List.range c.tag_len).map (pm.tag c.ctxd.key c.ctxd.iv
          (if c.aad_len = 0 then c.ctxd.gcm_add else c.aad.take c.aad_len)
          ((if c.aad_len = 0 then c.ctxd.ghash_data else []) ++
            buf.take (buf.length - c.tag_len)))) ∧
    ((srtp_aes_gcm_mbedtls_decrypt pm c buf).1 = .auth_fail ↔
      ¬ (buf.drop (buf.length - c.tag_len)).take c.tag_len =
        (List.range c.tag_len).map (pm.tag c.ctxd.key c.ctxd.iv
          (if c.aad_len = 0 then c.ctxd.gcm_add else c.aad.take c.aad_len)
          ((if c.aad_len = 0 then c.ctxd.ghash_data else []) ++
            buf.take (buf.length - c.tag_len)))) := by
  by_cases ha : c.aad_len = 0 <;>
    by_cases he : (buf.drop (buf.length - c.tag_len)).take c.tag_len =
      (List.range c.tag_len).map (pm.tag c.ctxd.key c.ctxd.iv
        (if c.aad_len = 0 then c.ctxd.gcm_add else c.aad.take c.aad_len)
        ((if c.aad_len = 0 then c.ctxd.ghash_data else []) ++
          buf.take (buf.length - c.tag_len))) <;>
      simp_all [srtp_aes_gcm_mbedtls_decrypt, forwardAad, activeCt, putCt,
        mbedtls_cipher_reset, mbedtls_cipher_update_ad, mbedtls_cipher_update,
        mbedtls_cipher_finish, mbedtls_cipher_check_tag, mbedtls_gcm_tag,
        List.length_take, Nat.min_le_left]

/-- A context primed for decryption of a concrete packet. -/
def ctxDec128 : srtp_aes_gcm_ctx_t :=
  (srtp_aes_gcm_mbedtls_set_iv pm0 ctxAfterInit128 (List.replicate 12 3)
    .srtp_direction_decrypt).2

set_option maxRecDepth 100000 in
/-- Witness for the decrypt specification at a concrete context and buffer. -/
theorem decrypt_spec_witness :
    ((srtp_aes_gcm_mbedtls_decrypt pm0 ctxDec128 (List.replicate 20 0)).2.2).length =
      (List.replicate 20 0).length - ctxDec128.tag_len :=
  (decrypt_spec pm0 ctxDec128 (List.replicate 20 0) (by decide) (by decide)
    rfl rfl rfl rfl (by decide)).1

/-- Claim C10: beyond requiring a set direction, the encrypt and decrypt
entry points are direction-agnostic — `encrypt` on a direction-decrypt
context passes the direction check and works on the decrypt sub-context (the
encrypt sub-context is untouched and irrelevant to status, output and the
updated decrypt sub-context), symmetrically for `decrypt` on a
direction-encrypt context, and `get_tag` picks its sub-context solely from
the stored direction. -/
theorem entry_points_direction_agnostic (pm : MbedPrim) (c : srtp_aes_gcm_ctx_t)
    (buf : List Nat) (x : mbedtls_cipher_context_t) :
    (c.dir = .srtp_direction_decrypt →
      (srtp_aes_gcm_mbedtls_encrypt pm c buf).1 ≠ .bad_param ∧
      (srtp_aes_gcm_mbedtls_encrypt pm c buf).2.1.ctxe = c.ctxe ∧
      (srtp_aes_gcm_mbedtls_encrypt pm { c with ctxe := x } buf).1 =
        (srtp_aes_gcm_mbedtls_encrypt pm c buf).1 ∧
      (srtp_aes_gcm_mbedtls_encrypt pm { c with ctxe := x } buf).2.2 =
        (srtp_aes_gcm_mbedtls_encrypt pm c buf).2.2 ∧
      (srtp_aes_gcm_mbedtls_encrypt pm { c with ctxe := x } buf).2.1.ctxd =
        (srtp_aes_gcm_mbedtls_encrypt pm c buf).2.1.ctxd) ∧
    (c.dir = .srtp_direction_encrypt →
      (srtp_aes_gcm_mbedtls_decrypt pm c buf).1 ≠ .bad_param ∧
      (srtp_aes_gcm_mbedtls_decrypt pm c buf).2.1.ctxd = c.ctxd ∧
      (srtp_aes_gcm_mbedtls_decrypt pm { c with ctxd := x } buf).1 =
        (srtp_aes_gcm_mbedtls_decrypt pm c buf).1 ∧
      (srtp_aes_gcm_mbedtls_decrypt pm { c with ctxd := x } buf).2.2 =
        (srtp_aes_gcm_mbedtls_decrypt pm c buf).2.2 ∧
      (srtp_aes_gcm_mbedtls_decrypt pm { c with ctxd := x } buf).2.1.ctxe =
        (srtp_aes_gcm_mbedtls_decrypt pm c buf).2.1.ctxe) ∧
    (c.dir = .srtp_direction_decrypt →
      srtp_aes_gcm_mbedtls_get_tag pm c =
        (match mbedtls_cipher_write_tag pm c.ctxd c.tag_len with
         | none => (.cipher_fail, [], 0)
         | some t => (.ok, t, c.tag_len))) ∧
    (c.dir = .srtp_direction_encrypt →
      srtp_aes_gcm_mbedtls_get_tag pm c =
        (match mbedtls_cipher_write_tag pm c.ctxe c.tag_len with
         | none => (.cipher_fail, [], 0)
         | some t => (.ok, t, c.tag_len))) := by
  refine ⟨?_, ?_, ?_, ?_⟩
  · intro hdir
    cases h3 : pm.reset_ok <;> cases h5 : pm.update_ad_ok <;>
      cases h6 : pm.update_ok <;> cases h7 : pm.finish_ok <;>
        by_cases ha : c.aad_len = 0 <;>
          simp [srtp_aes_gcm_mbedtls_encrypt, forwardAad, activeCt, putCt,
            mbedtls_cipher_reset, mbedtls_cipher_update_ad,
            mbedtls_cipher_update, mbedtls_cipher_update_patched,
            mbedtls_cipher_finish, hdir, h3, h5, h6, h7, ha]
  · intro hdir
    cases h3 : pm.reset_ok <;> cases h5 : pm.update_ad_ok <;>
      cases h6 : pm.update_ok <;> cases h7 : pm.finish_ok <;>
        by_cases ha : c.aad_len = 0 <;>
          simp [srtp_aes_gcm_mbedtls_decrypt, forwardAad, activeCt, putCt,
            mbedtls_cipher_reset, mbedtls_cipher_update_ad,
            mbedtls_cipher_update, mbedtls_cipher_finish,
            mbedtls_cipher_check_tag, mbedtls_gcm_tag,
            hdir, h3, h5, h6, h7, ha] <;>
          split_ifs <;> simp
  · intro hdir
    unfold srtp_aes_gcm_mbedtls_get_tag
    have hact : activeCt c = c.ctxd := by simp [activeCt, hdir]
    rw [hact]
  · intro hdir
    unfold srtp_aes_gcm_mbedtls_get_tag
    have hact : activeCt c = c.ctxe := by simp [activeCt, hdir]
    rw [hact]

/-- A context primed for encryption of a concrete packet. -/
def ctxEnc128 : srtp_aes_gcm_ctx_t :=
  (srtp_aes_gcm_mbedtls_set_iv pm0 ctxAfterInit128 (List.replicate 12 3)
    .srtp_direction_encrypt).2

set_option maxRecDepth 100000 in
/-- Witness for the direction-agnostic entry points: encrypt on a
direction-decrypt context and decrypt on a direction-encrypt context both
pass the direction check. -/
theorem entry_points_direction_agnostic_witness :
    (srtp_aes_gcm_mbedtls_encrypt pm0 ctxDec128 [1, 2]).1 ≠ .bad_param ∧
    (srtp_aes_gcm_mbedtls_decrypt pm0 ctxEnc128 (List.replicate 20 0)).1 ≠ .bad_param :=
  ⟨((entry_points_direction_agnostic pm0 ctxDec128 [1, 2] mbedtls_cipher_init).1
      (by decide)).1,
   ((entry_points_direction_agnostic pm0 ctxEnc128 (List.replicate 20 0)
      mbedtls_cipher_init).2.1 (by decide)).1⟩
